import Mathlib

/-!
Verification of the Pond CLI (`src/pond_cli/client.py` and
`src/pond_cli/cli.py`): a shallow embedding of the API client and the
command-line shell, together with proofs of the specification claims.

The remote HTTP service is modelled as an arbitrary function from requests
to responses (`Server`); the client and CLI are embedded as pure Lean
functions over that parameter.  Each CLI invocation is summarised by a
`CliResult`: the sequence of values printed, the process exit code, and a
trace of the client constructions and HTTP calls performed.
-/

namespace Pond

/-! ## Python string primitives used by the source -/

/-- Characters treated as whitespace by Python `str.strip()`. -/
def pyIsSpace (c : Char) : Bool :=
  c = ' ' || c = '\t' || c = '\n' || c = '\r' || c = '\x0b' || c = '\x0c'

/-- Python `s.strip()`: remove leading and trailing whitespace. -/
def pyStrip (s : String) : String :=
  String.mk (((s.data.dropWhile pyIsSpace).reverse.dropWhile pyIsSpace).reverse)

/-- Python `s.rstrip("/")`: remove trailing `/` characters. -/
def pyRstripSlash (s : String) : String :=
  String.mk ((s.data.reverse.dropWhile (fun c => c = '/')).reverse)

/-- Helper for Python `s.split(",")` on the character list. -/
def splitCommaAux : List Char → List (List Char)
  | [] => [[]]
  | c :: rest =>
    let r := splitCommaAux rest
    if c = ',' then [] :: r
    else
      match r with
      | [] => [[c]]
      | h :: t => (c :: h) :: t

/-- Python `s.split(",")`: split on every comma, keeping empty pieces
(`"".split(",") = [""]`, `",".split(",") = ["", ""]`). -/
def pySplitComma (s : String) : List String :=
  (splitCommaAux s.data).map String.mk

/-- Python `explicit or os.environ.get(VAR, "")`: the explicit argument wins
unless it is `None` or the empty string. -/
def pyOrEnv (explicit : Option String) (envVal : Option String) : String :=
  match explicit with
  | some s => if s = "" then envVal.getD "" else s
  | none => envVal.getD ""

/-! ## JSON values and dictionary access -/

/-- Decoded JSON values, as produced by `response.json()`.  Numbers are
modelled as rationals (every concrete wire value is one). -/
inductive JValue where
  | str (s : String)
  | num (q : Rat)
  | list (xs : List JValue)
  | obj (fields : List (String × JValue))

/-- Python `d.get(k, default)` on a decoded JSON object. -/
def jGet (fields : List (String × JValue)) (k : String) (d : JValue) : JValue :=
  match fields.lookup k with
  | some v => v
  | none => d

/-- Python truthiness of a decoded JSON value (`if x:`). -/
def JValue.truthy : JValue → Bool
  | .str s => !(s = "")
  | .num q => if q = 0 then false else true
  | .list xs => !xs.isEmpty
  | .obj fs => !fs.isEmpty

/-- String conversion applied when a decoded JSON value is interpolated into
an f-string.  Exact for strings; the renderings of numeric and composite
values are canonical placeholders (no property below depends on them). -/
def JValue.fstr : JValue → String
  | .str s => s
  | .num q => toString q
  | .list _ => "[...]"
  | .obj _ => "\x7b...\x7d"

/-! ## HTTP model -/

/-- HTTP methods used by the client. -/
inductive Method where
  | POST
  | GET
deriving Repr, DecidableEq

/-- An outgoing HTTP request, as assembled by the client: method, full URL,
optional JSON body, and exactly the headers the source passes to `requests`
(the transport may add its own; those are outside the program). -/
structure HttpRequest where
  method : Method
  url : String
  body : Option JValue
  headers : List (String × String)

/-- An HTTP response: status code and decoded JSON body (`none` models a
body that is not valid JSON, which `response.json()` rejects). -/
structure HttpResponse where
  status : Nat
  body : Option JValue

/-- The remote service: an arbitrary mapping from requests to responses. -/
def Server : Type := HttpRequest → HttpResponse

/-- Error taxonomy of the spec.  `configurationError` embeds the
`ValueError` raised by `PondClient.__init__`; `requestError` the
`requests.HTTPError` from `raise_for_status` (carrying the status code);
`decodeError` the JSON decode failure; `typeError` the `TypeError` or
`AttributeError` raised when a response has an unexpected dynamic shape. -/
inductive PondError where
  | configurationError (msg : String)
  | requestError (status : Nat)
  | decodeError
  | typeError
deriving Repr, DecidableEq

/-- Rendering of the caught exception in `f"... {e}"`.  Exact for the
configuration error (whose message the source sets); for the others an
abbreviation of the library-generated `str(e)`, on which no property below
depends beyond the operation prefix printed before it. -/
def PondError.render : PondError → String
  | .configurationError m => m
  | .requestError s => toString s ++ " Error for url"
  | .decodeError => "Expecting value"
  | .typeError => "unexpected response shape"

/-- `response.raise_for_status()` followed by `response.json()`:
`raise_for_status` raises exactly for status codes 400-599 (4xx client
errors and 5xx server errors); a non-JSON body then fails decoding. -/
def processResponse (r : HttpResponse) : Except PondError JValue :=
  if 400 ≤ r.status ∧ r.status < 600 then
    .error (.requestError r.status)
  else
    match r.body with
    | some j => .ok j
    | none => .error .decodeError

/-! ## The API client (`src/pond_cli/client.py`) -/

/-- The process environment variables read by the client. -/
structure Env where
  POND_BASE_URL : Option String
  POND_API_KEY : Option String
deriving Repr, DecidableEq

/-- A constructed client: resolved base URL (trailing slashes stripped) and
API key. -/
structure PondClient where
  base_url : String
  api_key : String
deriving Repr, DecidableEq

/-- Message of the `ValueError` raised when the base URL is missing. -/
def urlNotSetMsg : String :=
  "POND_BASE_URL not set. Set it in your environment or pass base_url."

/-- Message of the `ValueError` raised when the API key is missing. -/
def keyNotSetMsg : String :=
  "POND_API_KEY not set. Set it in your environment or pass api_key."

/-- `PondClient.__init__`: resolve the base URL (explicit argument `or` the
environment, then `rstrip("/")`) and the API key (explicit `or`
environment), and raise `ValueError` if either resolved value is empty.
The constructor takes no `Server`: no network request can occur here. -/
def PondClient.construct (base_url api_key : Option String) (env : Env) :
    Except PondError PondClient :=
  let burl := pyRstripSlash (pyOrEnv base_url env.POND_BASE_URL)
  let key := pyOrEnv api_key env.POND_API_KEY
  if burl = "" then
    .error (.configurationError urlNotSetMsg)
  else if key = "" then
    .error (.configurationError keyNotSetMsg)
  else
    .ok { base_url := burl, api_key := key }

/-- `PondClient._headers`: the headers sent on authenticated requests. -/
def PondClient.authHeaders (c : PondClient) : List (String × String) :=
  [("Content-Type", "application/json"), ("X-API-Key", c.api_key)]

/-- The request assembled by `PondClient._post`. -/
def PondClient.postRequest (c : PondClient) (endpoint : String)
    (data : List (String × JValue)) : HttpRequest :=
  { method := .POST
  , url := c.base_url ++ "/api/v1/" ++ endpoint
  , body := some (.obj data)
  , headers := c.authHeaders }

/-- `PondClient._post`: issue an authenticated POST and decode the reply. -/
def PondClient.post (c : PondClient) (endpoint : String)
    (data : List (String × JValue)) (server : Server) : Except PondError JValue :=
  processResponse (server (c.postRequest endpoint data))

/-- The request assembled by `PondClient._get_no_auth`: no body and no
headers (in particular no API-key header). -/
def PondClient.getNoAuthRequest (c : PondClient) (endpoint : String) : HttpRequest :=
  { method := .GET
  , url := c.base_url ++ "/api/v1/" ++ endpoint
  , body := none
  , headers := [] }

/-- `PondClient._get_no_auth`: issue an unauthenticated GET and decode. -/
def PondClient.getNoAuth (c : PondClient) (endpoint : String)
    (server : Server) : Except PondError JValue :=
  processResponse (server (c.getNoAuthRequest endpoint))

/-- Body built by `PondClient.store`: always the content field, plus the
tags field exactly when `tags` is a non-empty list (Python `if tags:`). -/
def storeData (content : String) (tags : Option (List String)) :
    List (String × JValue) :=
  [("content", .str content)] ++
    (match tags with
     | some ts => if ts.isEmpty then [] else [("tags", .list (ts.map .str))]
     | none => [])

/-- The request issued by `PondClient.store`. -/
def PondClient.storeRequest (c : PondClient) (content : String)
    (tags : Option (List String)) : HttpRequest :=
  c.postRequest "store" (storeData content tags)

/-- `PondClient.store`. -/
def PondClient.store (c : PondClient) (content : String)
    (tags : Option (List String)) (server : Server) : Except PondError JValue :=
  c.post "store" (storeData content tags) server

/-- The request issued by `PondClient.search`. -/
def PondClient.searchRequest (c : PondClient) (query : String) (limit : Int) :
    HttpRequest :=
  c.postRequest "search" [("query", .str query), ("limit", .num limit)]

/-- `PondClient.search`. -/
def PondClient.search (c : PondClient) (query : String) (limit : Int)
    (server : Server) : Except PondError JValue :=
  c.post "search" [("query", .str query), ("limit", .num limit)] server

/-- The request issued by `PondClient.recent`.  The `hours` parameter is a
Python float, modelled as a rational. -/
def PondClient.recentRequest (c : PondClient) (hours : Rat) (limit : Int) :
    HttpRequest :=
  c.postRequest "recent" [("hours", .num hours), ("limit", .num limit)]

/-- `PondClient.recent`. -/
def PondClient.recent (c : PondClient) (hours : Rat) (limit : Int)
    (server : Server) : Except PondError JValue :=
  c.post "recent" [("hours", .num hours), ("limit", .num limit)] server

/-- The request issued by `PondClient.init` (empty JSON object body). -/
def PondClient.initRequest (c : PondClient) : HttpRequest :=
  c.postRequest "init" []

/-- `PondClient.init`. -/
def PondClient.init (c : PondClient) (server : Server) : Except PondError JValue :=
  c.post "init" [] server

/-- The request issued by `PondClient.health` (unauthenticated GET). -/
def PondClient.healthRequest (c : PondClient) : HttpRequest :=
  c.getNoAuthRequest "health"

/-- `PondClient.health`. -/
def PondClient.health (c : PondClient) (server : Server) : Except PondError JValue :=
  c.getNoAuth "health" server

/-! ## The command-line shell (`src/pond_cli/cli.py`) -/

/-- A value passed to `rprint`: either a markup string or a decoded JSON
value (the raw-response fallbacks print the decoded object itself). -/
inductive Out where
  | text (s : String)
  | value (j : JValue)

/-- Observable side effects of an invocation other than printing: client
constructions (the `PondClient()` call in `get_client`, whether or not it
succeeds) and HTTP calls. -/
inductive Event where
  | constructClient
  | httpCall (req : HttpRequest)

/-- Summary of one CLI invocation: everything printed, the process exit
code, and the trace of constructions and HTTP calls, in order. -/
structure CliResult where
  output : List Out
  exitCode : Nat
  events : List Event

/-- Number of client constructions in a trace. -/
def countConstructs (evs : List Event) : Nat :=
  (evs.filter (fun e => match e with | .constructClient => true | _ => false)).length

/-- Number of HTTP calls in a trace. -/
def countHttpCalls (evs : List Event) : Nat :=
  (evs.filter (fun e => match e with | .httpCall _ => true | _ => false)).length

/-- `get_client`: construct a `PondClient` from the environment alone,
turning a `ValueError` into the printed message of the error branch. -/
def get_client (env : Env) : Except String PondClient :=
  match PondClient.construct none none env with
  | .ok c => .ok c
  | .error e => .error ("[red]Error:[/red] " ++ e.render)

/-- A memory record as consumed by `format_memory`: the `content`,
`created_at` and `tags` fields of the decoded JSON object (with the
defaults `""`, `""` and `[]` applied by its `.get` calls). -/
structure Memory where
  content : String
  created_at : String
  tags : List String

/-- One tag value.  The source renders tags with an f-string, so only
string tags are accepted here; see `decodeMemory`. -/
def decodeTag : JValue → Option String
  | .str t => some t
  | _ => none

/-- Extraction of a `Memory` from one element of the `memories` list, with
the `.get` defaults of `format_memory`.  A non-object element, or a field
of an undocumented dynamic type, is mapped to `none`: in the source such
shapes raise (`AttributeError`/`TypeError`) inside the command's `try`
block and are caught by the same handler as any other failure. -/
def decodeMemory : JValue → Option Memory
  | .obj fs =>
    match jGet fs "content" (.str ""), jGet fs "created_at" (.str ""),
          jGet fs "tags" (.list []) with
    | .str c, .str d, .list ts =>
      match ts.mapM decodeTag with
      | some tl => some { content := c, created_at := d, tags := tl }
      | none => none
    | _, _, _ => none
  | _ => none

/-- The `lines` list built by `format_memory` before joining: the header
line (ordinal marker when an index is given, then the creation date
truncated to its first 10 characters), the full content, and — only when
there are tags — the first 5 tags comma-joined with a leading marker. -/
def format_memory_lines (mem : Memory) (index : Option Nat) : List String :=
  let content := mem.content
  let created := mem.created_at.take 10
  let tags := mem.tags
  let lines :=
    match index with
    | some i => ["[bold cyan]#" ++ toString i ++ "[/bold cyan] [dim](" ++ created ++ ")[/dim]"]
    | none => ["[dim](" ++ created ++ ")[/dim]"]
  let lines := lines ++ [content]
  if tags.isEmpty then lines
  else
    lines ++ [String.intercalate ", " ((tags.take 5).map (fun t => "[dim]#" ++ t ++ "[/dim]"))]

/-- `format_memory`: the joined rendering of a single memory. -/
def format_memory (mem : Memory) (index : Option Nat) : String :=
  String.intercalate "\n" (format_memory_lines mem index)

/-- The `rprint(output)` of the `init` command: printing a string prints
its text; printing any other value prints the value itself. -/
def rprintOut : JValue → Out
  | .str s => .text s
  | j => .value j

/-- The `tag_list` expression of the `store` command:
`[t.strip() for t in tags.split(",")] if tags else None`. -/
def storeCmdTagList (tags : Option String) : Option (List String) :=
  match tags with
  | some t => if t = "" then none else some ((pySplitComma t).map pyStrip)
  | none => none

/-- The `store` command.  `content`/`tags` are the argument and option,
`stdin` the full standard-input stream, `isatty` whether standard input is
a terminal.  The disabled "splash" display after a successful store reads
nothing and prints nothing, so it does not appear in the result. -/
def storeCmd (content : Option String) (tags : Option String) (stdin : String)
    (isatty : Bool) (env : Env) (server : Server) : CliResult :=
  let promptOut : List Out :=
    match content with
    | none =>
      if isatty then [.text "[yellow]Enter memory content (Ctrl+D to finish):[/yellow]"]
      else []
    | some _ => []
  let content2 : String :=
    match content with
    | none => pyStrip stdin
    | some c => c
  if content2 = "" then
    { output := promptOut ++ [.text "[red]Error:[/red] No content provided"]
    , exitCode := 1, events := [] }
  else
    match get_client env with
    | .error msg =>
      { output := promptOut ++ [.text msg], exitCode := 1, events := [.constructClient] }
    | .ok client =>
      let req := client.storeRequest content2 (storeCmdTagList tags)
      match processResponse (server req) with
      | .ok _ =>
        { output := promptOut ++ [.text "[green]✓ Memory stored[/green]"]
        , exitCode := 0, events := [.constructClient, .httpCall req] }
      | .error e =>
        { output := promptOut ++ [.text ("[red]Error storing memory:[/red] " ++ e.render)]
        , exitCode := 1, events := [.constructClient, .httpCall req] }

/-- Rendering of a non-empty `memories` list: the header, then each memory
formatted with its 1-based ordinal followed by a blank `rprint()`.  `none`
when some element has an undocumented shape (which raises in the source). -/
def renderMemoryList (memories : List JValue) (header : String) : Option (List Out) :=
  match memories.mapM decodeMemory with
  | some ms =>
    some ([.text header] ++
      (ms.enumFrom 1).flatMap (fun p => [.text (format_memory p.2 (some p.1)), .text ""]))
  | none => none

/-- Shared shape of the `search` and `recent` result handling:
`result.get("memories", [])`, the truthiness test, and the list/empty
branches.  `errPre` is the command's error prefix, `header` its list
header, `emptyMsg` its no-results message. -/
def memoriesBranch (result : JValue) (errPre header emptyMsg : String)
    (evs : List Event) : CliResult :=
  match result with
  | .obj fs =>
    if (jGet fs "memories" (.list [])).truthy then
      match jGet fs "memories" (.list []) with
      | .list memories =>
        match renderMemoryList memories header with
        | some outs => { output := outs, exitCode := 0, events := evs }
        | none =>
          { output := [.text (errPre ++ PondError.typeError.render)]
          , exitCode := 1, events := evs }
      | _ =>
        { output := [.text (errPre ++ PondError.typeError.render)]
        , exitCode := 1, events := evs }
    else
      { output := [.text emptyMsg], exitCode := 0, events := evs }
  | _ =>
    { output := [.text (errPre ++ PondError.typeError.render)]
    , exitCode := 1, events := evs }

/-- Length of the `memories` list of a result object (0 otherwise); used
only to build the headers, whose `len(memories)` the source interpolates. -/
def lenOfMemories (result : JValue) : Nat :=
  match result with
  | .obj fs =>
    match jGet fs "memories" (.list []) with
    | .list memories => memories.length
    | _ => 0
  | _ => 0

/-- The `search` command. -/
def searchCmd (query : String) (limit : Int) (env : Env) (server : Server) :
    CliResult :=
  match get_client env with
  | .error msg => { output := [.text msg], exitCode := 1, events := [.constructClient] }
  | .ok client =>
    let req := client.searchRequest query limit
    let evs := [Event.constructClient, Event.httpCall req]
    match processResponse (server req) with
    | .error e =>
      { output := [.text ("[red]Error searching:[/red] " ++ e.render)]
      , exitCode := 1, events := evs }
    | .ok result =>
      memoriesBranch result "[red]Error searching:[/red] "
        ("[dim]Found " ++ toString (lenOfMemories result) ++ " memories:[/dim]\n")
        "[yellow]No memories found[/yellow]" evs

/-- The `recent` command.  The float `hours` is interpolated into the
header; `toString` stands in for Python float formatting. -/
def recentCmd (hours : Rat) (limit : Int) (env : Env) (server : Server) :
    CliResult :=
  match get_client env with
  | .error msg => { output := [.text msg], exitCode := 1, events := [.constructClient] }
  | .ok client =>
    let req := client.recentRequest hours limit
    let evs := [Event.constructClient, Event.httpCall req]
    match processResponse (server req) with
    | .error e =>
      { output := [.text ("[red]Error getting recent:[/red] " ++ e.render)]
      , exitCode := 1, events := evs }
    | .ok result =>
      memoriesBranch result "[red]Error getting recent:[/red] "
        ("[dim]Recent " ++ toString (lenOfMemories result) ++ " memories (last " ++
          toString hours ++ "h):[/dim]\n")
        "[yellow]No recent memories[/yellow]" evs

/-- The `init` command: print the truthy `result` field, else the raw
response object. -/
def initCmd (env : Env) (server : Server) : CliResult :=
  match get_client env with
  | .error msg => { output := [.text msg], exitCode := 1, events := [.constructClient] }
  | .ok client =>
    let req := client.initRequest
    let evs := [Event.constructClient, Event.httpCall req]
    match processResponse (server req) with
    | .error e =>
      { output := [.text ("[red]Error initializing:[/red] " ++ e.render)]
      , exitCode := 1, events := evs }
    | .ok result =>
      match result with
      | .obj fs =>
        let output := jGet fs "result" (.str "")
        if output.truthy then { output := [rprintOut output], exitCode := 0, events := evs }
        else { output := [.value (.obj fs)], exitCode := 0, events := evs }
      | _ =>
        { output := [.text ("[red]Error initializing:[/red] " ++ PondError.typeError.render)]
        , exitCode := 1, events := evs }

/-- Python `status == "healthy"` on a decoded JSON value: true exactly for
the string `"healthy"` (comparison with a non-string is simply unequal). -/
def isHealthyStatus : JValue → Bool
  | .str s => s == "healthy"
  | _ => false

/-- The `health` command. -/
def healthCmd (env : Env) (server : Server) : CliResult :=
  match get_client env with
  | .error msg => { output := [.text msg], exitCode := 1, events := [.constructClient] }
  | .ok client =>
    let req := client.healthRequest
    let evs := [Event.constructClient, Event.httpCall req]
    match processResponse (server req) with
    | .error e =>
      { output := [.text ("[red]Error checking health:[/red] " ++ e.render)]
      , exitCode := 1, events := evs }
    | .ok result =>
      match result with
      | .obj fs =>
        let status := jGet fs "status" (.str "unknown")
        let db := jGet fs "database" (.str "unknown")
        let emb := jGet fs "embeddings" (.str "unknown")
        let version := jGet fs "version" (.str "?")
        if isHealthyStatus status then
          { output := [.text ("[green]✓ Pond is healthy[/green] (v" ++ version.fstr ++ ")"),
                       .text ("  Database: " ++ db.fstr),
                       .text ("  Embeddings: " ++ emb.fstr)]
          , exitCode := 0, events := evs }
        else
          { output := [.text ("[yellow]⚠ Pond status: " ++ status.fstr ++ "[/yellow]")]
          , exitCode := 0, events := evs }
      | _ =>
        { output := [.text ("[red]Error checking health:[/red] " ++ PondError.typeError.render)]
        , exitCode := 1, events := evs }

/-- One parsed invocation of the program: a subcommand with its arguments. -/
inductive Command where
  | store (content : Option String) (tags : Option String)
  | search (query : String) (limit : Int)
  | recent (hours : Rat) (limit : Int)
  | init
  | health

/-- Dispatch of a parsed invocation to its command handler. -/
def runCli : Command → String → Bool → Env → Server → CliResult
  | .store c t, stdin, tty, env, server => storeCmd c t stdin tty env server
  | .search q n, _, _, env, server => searchCmd q n env server
  | .recent h n, _, _, env, server => recentCmd h n env server
  | .init, _, _, env, server => initCmd env server
  | .health, _, _, env, server => healthCmd env server

/-! ## Concrete fixtures for witnesses and counterexamples -/

/-- A fully configured environment. -/
def envFull : Env :=
  { POND_BASE_URL := some "http://pond.example", POND_API_KEY := some "secret" }

/-- The client that `envFull` yields. -/
def clientFull : PondClient :=
  { base_url := "http://pond.example", api_key := "secret" }

/-- A server that always answers 200 with an empty JSON object. -/
def okServer : Server := fun _ => { status := 200, body := some (.obj []) }

/-- A server that always answers 304 Not Modified with a JSON body: a
non-2xx status outside the 4xx/5xx range that `raise_for_status` checks. -/
def server304 : Server := fun _ => { status := 304, body := some (.obj []) }

/-! ## Auxiliary lemmas -/

/-- The comma split of any character list is non-empty. -/
theorem splitCommaAux_ne_nil (cs : List Char) : splitCommaAux cs ≠ [] := by
  induction cs with
  | nil => simp [splitCommaAux]
  | cons c rest ih =>
    unfold splitCommaAux
    by_cases hc : c = ','
    · simp [hc]
    · simp only [hc, if_false]
      cases hr : splitCommaAux rest with
      | nil => simp
      | cons h t => simp

/-- Python `s.split(",")` always returns at least one piece. -/
theorem pySplitComma_ne_nil (s : String) : pySplitComma s ≠ [] := by
  unfold pySplitComma
  simp [splitCommaAux_ne_nil]

/-- The body `PondClient.store` sends for a non-empty tag list. -/
theorem storeRequest_body_of_ne_nil (c : PondClient) (content : String)
    (ts : List String) (h : ts ≠ []) :
    (c.storeRequest content (some ts)).body =
      some (.obj [("content", .str content), ("tags", .list (ts.map .str))]) := by
  cases ts with
  | nil => exact absurd rfl h
  | cons a l => rfl

/-! ## Claim C1 -/

/-- C1 counterexample: with the explicit base URL `"/"` and the API key
`"k"` — both supplied and non-empty, so neither is "missing (or empty)" —
construction nevertheless fails with a configuration error, because
`rstrip("/")` reduces the base URL to the empty string before the check. -/
theorem c1_counterexample :
    PondClient.construct (some "/") (some "k")
        { POND_BASE_URL := none, POND_API_KEY := none } =
      .error (.configurationError urlNotSetMsg) := rfl

/-- C1 (amended): construction fails with a `ConfigurationError` exactly
when the resolved base URL (explicit argument `or` environment, then
trailing slashes stripped) or the resolved API key is empty; when both
resolved values are non-empty it succeeds with those values.  The
constructor takes no `Server` argument, so no network request can be
involved in this decision. -/
theorem c1_construction_contract (bu ak : Option String) (env : Env) :
    (pyRstripSlash (pyOrEnv bu env.POND_BASE_URL) = "" ∨
       pyOrEnv ak env.POND_API_KEY = "" →
      ∃ m, PondClient.construct bu ak env = .error (.configurationError m)) ∧
    (pyRstripSlash (pyOrEnv bu env.POND_BASE_URL) ≠ "" ∧
       pyOrEnv ak env.POND_API_KEY ≠ "" →
      PondClient.construct bu ak env =
        .ok { base_url := pyRstripSlash (pyOrEnv bu env.POND_BASE_URL)
            , api_key := pyOrEnv ak env.POND_API_KEY }) := by
  constructor
  · intro h
    unfold PondClient.construct
    by_cases hb : pyRstripSlash (pyOrEnv bu env.POND_BASE_URL) = ""
    · exact ⟨urlNotSetMsg, by simp [hb]⟩
    · rcases h with h | h
      · exact absurd h hb
      · exact ⟨keyNotSetMsg, by simp [hb, h]⟩
  · rintro ⟨hb, hk⟩
    unfold PondClient.construct
    simp [hb, hk]

/-- Witness for `c1_construction_contract` at concrete inputs: a missing
base URL fails even with the key present, and explicit non-empty values
succeed. -/
theorem c1_construction_contract_witness :
    (∃ m, PondClient.construct none none
        { POND_BASE_URL := none, POND_API_KEY := some "k" } =
          .error (.configurationError m)) ∧
    PondClient.construct (some "http://x") (some "k")
        { POND_BASE_URL := none, POND_API_KEY := none } =
      .ok { base_url := "http://x", api_key := "k" } := by
  constructor
  · exact (c1_construction_contract none none
      { POND_BASE_URL := none, POND_API_KEY := some "k" }).1 (Or.inl (by decide))
  · exact (c1_construction_contract (some "http://x") (some "k")
      { POND_BASE_URL := none, POND_API_KEY := none }).2 ⟨by decide, by decide⟩

/-! ## Claim C3 -/

/-- C3: `store` with the tags string `"a, b"` sends a body whose tags field
is exactly the trimmed list `["a", "b"]`, while `tags=None` and an empty
tag list both send a body with the content field and no tags field. -/
theorem c3_store_tags_body (c : PondClient) (content : String) :
    (c.storeRequest content (storeCmdTagList (some "a, b"))).body =
      some (.obj [("content", .str content), ("tags", .list [.str "a", .str "b"])]) ∧
    (c.storeRequest content none).body = some (.obj [("content", .str content)]) ∧
    (c.storeRequest content (some [])).body = some (.obj [("content", .str content)]) :=
  ⟨rfl, rfl, rfl⟩

/-! ## Claim C5 -/

/-- C5: every authenticated request (store, search, recent, init) carries
exactly the JSON content-type header and the `X-API-Key` header holding the
configured API key, while the health request carries no headers at all —
in particular no API-key header. -/
theorem c5_auth_headers (c : PondClient) (content query : String)
    (tl : Option (List String)) (hours : Rat) (limit : Int) :
    (c.storeRequest content tl).headers =
      [("Content-Type", "application/json"), ("X-API-Key", c.api_key)] ∧
    (c.searchRequest query limit).headers =
      [("Content-Type", "application/json"), ("X-API-Key", c.api_key)] ∧
    (c.recentRequest hours limit).headers =
      [("Content-Type", "application/json"), ("X-API-Key", c.api_key)] ∧
    c.initRequest.headers =
      [("Content-Type", "application/json"), ("X-API-Key", c.api_key)] ∧
    c.healthRequest.headers = [] ∧
    c.healthRequest.headers.lookup "X-API-Key" = none :=
  ⟨rfl, rfl, rfl, rfl, rfl, rfl⟩

/-! ## Claim C9 -/

/-- C9: `format_memory` renders the creation date truncated to its first 10
characters, then the full content, then — only when there are tags — the
first 5 tags comma-joined with a leading marker; concretely,
`created_at = "2025-01-15T10:30:00Z"` renders as `2025-01-15`. -/
theorem c9_format_memory (mem : Memory) (i : Option Nat) :
    (format_memory_lines mem i =
      (match i with
       | some n =>
         ["[bold cyan]#" ++ toString n ++ "[/bold cyan] [dim](" ++
            mem.created_at.take 10 ++ ")[/dim]"]
       | none => ["[dim](" ++ mem.created_at.take 10 ++ ")[/dim]"]) ++
      [mem.content] ++
      (if mem.tags.isEmpty then []
       else [String.intercalate ", "
          ((mem.tags.take 5).map (fun t => "[dim]#" ++ t ++ "[/dim]"))])) ∧
    format_memory { content := "hello", created_at := "2025-01-15T10:30:00Z", tags := [] }
        none =
      "[dim](2025-01-15)[/dim]\nhello" := by
  refine ⟨?_, rfl⟩
  unfold format_memory_lines
  cases i <;> by_cases h : mem.tags.isEmpty <;> simp [h]

/-! ## Claim C10 -/

/-- C10: for every non-empty tags string, the tags field sent is exactly
the comma-split, whitespace-stripped components — including empty
components; in particular the tags string `","` sends `["", ""]` rather
than omitting the field. -/
theorem c10_tags_split_verbatim (c : PondClient) (content t : String) (h : t ≠ "") :
    (c.storeRequest content (storeCmdTagList (some t))).body =
      some (.obj [("content", .str content),
                  ("tags", .list (((pySplitComma t).map pyStrip).map .str))]) ∧
    (c.storeRequest content (storeCmdTagList (some ","))).body =
      some (.obj [("content", .str content), ("tags", .list [.str "", .str ""])]) := by
  constructor
  · have htl : storeCmdTagList (some t) = some ((pySplitComma t).map pyStrip) := by
      simp [storeCmdTagList, h]
    rw [htl]
    exact storeRequest_body_of_ne_nil c content _
      (by simpa using pySplitComma_ne_nil t)
  · rfl

/-- Witness for `c10_tags_split_verbatim` at the tags string `"a,b"`. -/
theorem c10_tags_split_verbatim_witness :
    (clientFull.storeRequest "x" (storeCmdTagList (some "a,b"))).body =
      some (.obj [("content", .str "x"),
                  ("tags", .list (((pySplitComma "a,b").map pyStrip).map .str))]) :=
  (c10_tags_split_verbatim clientFull "x" "a,b" (by decide)).1

/-! ## Claim C4 -/

/-- C4: the `store` command with no positional content and a whitespace-only
standard-input stream prints the validation error, exits with status 1, and
its event trace is empty — no client construction and no network call. -/
theorem c4_empty_stdin_validation (tagsStr : Option String) (stdin : String)
    (tty : Bool) (env : Env) (server : Server) (h : pyStrip stdin = "") :
    runCli (.store none tagsStr) stdin tty env server =
      { output :=
          (if tty then [Out.text "[yellow]Enter memory content (Ctrl+D to finish):[/yellow]"]
           else []) ++ [Out.text "[red]Error:[/red] No content provided"]
      , exitCode := 1
      , events := [] } := by
  simp [runCli, storeCmd, h]

/-- Witness for `c4_empty_stdin_validation` on the stream `" \n\t "`. -/
theorem c4_empty_stdin_validation_witness :
    runCli (.store none none) " \n\t " false envFull okServer =
      { output := ([] : List Out) ++ [Out.text "[red]Error:[/red] No content provided"]
      , exitCode := 1
      , events := [] } := by
  have h := c4_empty_stdin_validation none " \n\t " false envFull okServer (by decide)
  simpa using h

/-! ## Claim C6 -/

/-- Events of the shared search/recent result-handling branch. -/
theorem memoriesBranch_events (r : JValue) (a b c : String) (evs : List Event) :
    (memoriesBranch r a b c evs).events = evs := by
  cases r <;> simp only [memoriesBranch]
  repeat' split
  all_goals rfl

/-- C6 counterexample: the `store` invocation with no positional content and
an empty stream exits after local validation with an empty event trace —
zero client constructions, not "exactly one". -/
theorem c6_counterexample :
    (runCli (.store none none) "" false envFull okServer).events = [] ∧
    countConstructs (runCli (.store none none) "" false envFull okServer).events = 0 :=
  ⟨rfl, rfl⟩

/-- C6 (amended): every invocation performs at most one client construction
and at most one network call; no execution path constructs the client twice
or issues a second request (the validation-error and configuration-error
paths perform fewer). -/
theorem c6_at_most_one_construction_and_call (cmd : Command) (stdin : String)
    (tty : Bool) (env : Env) (server : Server) :
    countConstructs (runCli cmd stdin tty env server).events ≤ 1 ∧
    countHttpCalls (runCli cmd stdin tty env server).events ≤ 1 := by
  cases cmd
  all_goals
    simp only [runCli, storeCmd, searchCmd, recentCmd, initCmd, healthCmd]
    repeat' split
    all_goals
      simp [countConstructs, countHttpCalls, memoriesBranch_events, List.filter]

/-! ## Claim C2 -/

/-- C2 counterexample: a server answering 304 Not Modified — a non-2xx
status — does not make the client call fail: `raise_for_status` only raises
for 4xx/5xx, so `store` succeeds, the CLI prints the success confirmation
and exits 0. -/
theorem c2_counterexample :
    (server304 { method := .POST, url := "", body := none, headers := [] }).status = 304 ∧
    clientFull.store "hello" none server304 = .ok (.obj []) ∧
    (runCli (.store (some "hello") none) "" false envFull server304).exitCode = 0 ∧
    (runCli (.store (some "hello") none) "" false envFull server304).output =
      [.text "[green]✓ Memory stored[/green]"] :=
  ⟨rfl, rfl, rfl, rfl⟩

/-- C2 (amended): a 4xx or 5xx HTTP response from any authenticated
operation (store, search, recent, init) makes the client call fail with a
`RequestError` carrying that status, and the CLI prints the error prefixed
by the failed operation's name and exits 1.  (A non-2xx status outside
400-599, such as 304, is not rejected by `raise_for_status`; see
`c2_counterexample`.) -/
theorem c2_http_error_surfaced (env : Env) (c : PondClient) (s : Nat)
    (b : Option JValue) (stdin : String) (tty : Bool) (content query : String)
    (tagsStr : Option String) (tl : Option (List String)) (hours : Rat) (limit : Int)
    (hc : PondClient.construct none none env = .ok c)
    (h4 : 400 ≤ s) (h6 : s < 600) :
    c.store content tl (fun _ => { status := s, body := b }) = .error (.requestError s) ∧
    c.search query limit (fun _ => { status := s, body := b }) = .error (.requestError s) ∧
    c.recent hours limit (fun _ => { status := s, body := b }) = .error (.requestError s) ∧
    c.init (fun _ => { status := s, body := b }) = .error (.requestError s) ∧
    (content ≠ "" →
      (runCli (.store (some content) tagsStr) stdin tty env
          (fun _ => { status := s, body := b })).output =
        [.text ("[red]Error storing memory:[/red] " ++ (PondError.requestError s).render)] ∧
      (runCli (.store (some content) tagsStr) stdin tty env
          (fun _ => { status := s, body := b })).exitCode = 1) ∧
    ((runCli (.search query limit) stdin tty env
          (fun _ => { status := s, body := b })).output =
        [.text ("[red]Error searching:[/red] " ++ (PondError.requestError s).render)] ∧
      (runCli (.search query limit) stdin tty env
          (fun _ => { status := s, body := b })).exitCode = 1) ∧
    ((runCli (.recent hours limit) stdin tty env
          (fun _ => { status := s, body := b })).output =
        [.text ("[red]Error getting recent:[/red] " ++ (PondError.requestError s).render)] ∧
      (runCli (.recent hours limit) stdin tty env
          (fun _ => { status := s, body := b })).exitCode = 1) ∧
    ((runCli .init stdin tty env (fun _ => { status := s, body := b })).output =
        [.text ("[red]Error initializing:[/red] " ++ (PondError.requestError s).render)] ∧
      (runCli .init stdin tty env (fun _ => { status := s, body := b })).exitCode = 1) := by
  have hresp : processResponse { status := s, body := b } = .error (.requestError s) := by
    unfold processResponse
    rw [if_pos ⟨h4, h6⟩]
  refine ⟨hresp, hresp, hresp, hresp, ?_, ?_, ?_, ?_⟩
  · intro hcontent
    constructor <;>
      simp [runCli, storeCmd, get_client, hc, hresp, hcontent]
  · constructor <;>
      simp [runCli, searchCmd, get_client, hc, hresp]
  · constructor <;>
      simp [runCli, recentCmd, get_client, hc, hresp]
  · constructor <;>
      simp [runCli, initCmd, get_client, hc, hresp]

/-- Witness for `c2_http_error_surfaced` on a 404 response. -/
theorem c2_http_error_surfaced_witness :
    clientFull.store "hello" none (fun _ => { status := 404, body := none }) =
      .error (.requestError 404) ∧
    (runCli (.store (some "hello") none) "" false envFull
        (fun _ => { status := 404, body := none })).output =
      [.text ("[red]Error storing memory:[/red] " ++ (PondError.requestError 404).render)] ∧
    (runCli (.store (some "hello") none) "" false envFull
        (fun _ => { status := 404, body := none })).exitCode = 1 := by
  have h := c2_http_error_surfaced envFull clientFull 404 none "" false "hello" "q"
    none none 24 10 rfl (by decide) (by decide)
  exact ⟨h.1, (h.2.2.2.2.1 (by decide)).1, (h.2.2.2.2.1 (by decide)).2⟩

/-! ## Claim C7 -/

/-- C7 counterexample: a response whose `result` field is present but empty
makes the `init` command print the raw response object, not the field's
(empty) value — presence alone does not select the field. -/
theorem c7_counterexample :
    (runCli .init "" false envFull
        (fun _ => { status := 200, body := some (.obj [("result", .str "")]) })).output =
      [.value (.obj [("result", .str "")])] ∧
    (runCli .init "" false envFull
        (fun _ => { status := 200, body := some (.obj [("result", .str "")]) })).exitCode = 0 :=
  ⟨rfl, rfl⟩

/-- C7 (amended): `init` prints the `result` field's value when that field
is present and truthy (in particular, a non-empty string); when the field
is absent, empty, or otherwise falsy, it prints the raw response object as
a fallback. -/
theorem c7_init_output (env : Env) (c : PondClient) (fs : List (String × JValue))
    (hc : PondClient.construct none none env = .ok c) :
    ((jGet fs "result" (.str "")).truthy = true →
      (runCli .init "" false env
          (fun _ => { status := 200, body := some (.obj fs) })).output =
        [rprintOut (jGet fs "result" (.str ""))] ∧
      (runCli .init "" false env
          (fun _ => { status := 200, body := some (.obj fs) })).exitCode = 0) ∧
    ((jGet fs "result" (.str "")).truthy = false →
      (runCli .init "" false env
          (fun _ => { status := 200, body := some (.obj fs) })).output =
        [.value (.obj fs)] ∧
      (runCli .init "" false env
          (fun _ => { status := 200, body := some (.obj fs) })).exitCode = 0) := by
  have hresp : processResponse { status := 200, body := some (.obj fs) } =
      .ok (.obj fs) := rfl
  constructor
  · intro ht
    constructor <;> simp [runCli, initCmd, get_client, hc, hresp, ht]
  · intro hf
    constructor <;> simp [runCli, initCmd, get_client, hc, hresp, hf]

/-- Witness for `c7_init_output`: a non-empty `result` field is printed,
and a response without the field falls back to the raw object. -/
theorem c7_init_output_witness :
    (runCli .init "" false envFull
        (fun _ => { status := 200, body := some (.obj [("result", JValue.str "hi")]) })).output =
      [rprintOut (jGet [("result", JValue.str "hi")] "result" (.str ""))] ∧
    (runCli .init "" false envFull
        (fun _ => { status := 200, body := some (.obj []) })).output =
      [.value (.obj [])] := by
  refine ⟨((c7_init_output envFull clientFull [("result", JValue.str "hi")] rfl).1
      (by decide)).1,
    ((c7_init_output envFull clientFull [] rfl).2 (by decide)).1⟩

/-! ## Claim C8 -/

/-- C8: when the health response's `status` field is `"healthy"`, the
command prints the success line carrying the version value plus the
database and embeddings sub-statuses and exits 0; for any other status
value it prints a single warning line carrying that status and still exits
0 — no error, no non-zero exit. -/
theorem c8_health_render (env : Env) (c : PondClient) (fs : List (String × JValue))
    (hc : PondClient.construct none none env = .ok c) :
    (isHealthyStatus (jGet fs "status" (.str "unknown")) = true →
      (runCli .health "" false env
          (fun _ => { status := 200, body := some (.obj fs) })).output =
        [.text ("[green]✓ Pond is healthy[/green] (v" ++
            (jGet fs "version" (.str "?")).fstr ++ ")"),
         .text ("  Database: " ++ (jGet fs "database" (.str "unknown")).fstr),
         .text ("  Embeddings: " ++ (jGet fs "embeddings" (.str "unknown")).fstr)] ∧
      (runCli .health "" false env
          (fun _ => { status := 200, body := some (.obj fs) })).exitCode = 0) ∧
    (isHealthyStatus (jGet fs "status" (.str "unknown")) = false →
      (runCli .health "" false env
          (fun _ => { status := 200, body := some (.obj fs) })).output =
        [.text ("[yellow]⚠ Pond status: " ++
            (jGet fs "status" (.str "unknown")).fstr ++ "[/yellow]")] ∧
      (runCli .health "" false env
          (fun _ => { status := 200, body := some (.obj fs) })).exitCode = 0) := by
  have hresp : processResponse { status := 200, body := some (.obj fs) } =
      .ok (.obj fs) := rfl
  constructor
  · intro ht
    constructor <;> simp [runCli, healthCmd, get_client, hc, hresp, ht]
  · intro hf
    constructor <;> simp [runCli, healthCmd, get_client, hc, hresp, hf]

/-- Witness for `c8_health_render`: the spec's two examples — a healthy
response with version 1.2, and a degraded response rendered as a warning
with exit code 0. -/
theorem c8_health_render_witness :
    (runCli .health "" false envFull
        (fun _ => { status := 200
                  , body := some (.obj [("status", JValue.str "healthy"),
                                        ("version", JValue.str "1.2")]) })).output =
      [.text ("[green]✓ Pond is healthy[/green] (v" ++
          (jGet [("status", JValue.str "healthy"), ("version", JValue.str "1.2")]
            "version" (.str "?")).fstr ++ ")"),
       .text ("  Database: " ++
          (jGet [("status", JValue.str "healthy"), ("version", JValue.str "1.2")]
            "database" (.str "unknown")).fstr),
       .text ("  Embeddings: " ++
          (jGet [("status", JValue.str "healthy"), ("version", JValue.str "1.2")]
            "embeddings" (.str "unknown")).fstr)] ∧
    (runCli .health "" false envFull
        (fun _ => { status := 200
                  , body := some (.obj [("status", JValue.str "degraded")]) })).output =
      [.text ("[yellow]⚠ Pond status: " ++
          (jGet [("status", JValue.str "degraded")] "status" (.str "unknown")).fstr ++
          "[/yellow]")] ∧
    (runCli .health "" false envFull
        (fun _ => { status := 200
                  , body := some (.obj [("status", JValue.str "degraded")]) })).exitCode = 0 := by
  refine ⟨((c8_health_render envFull clientFull
      [("status", JValue.str "healthy"), ("version", JValue.str "1.2")] rfl).1
        (by decide)).1,
    ((c8_health_render envFull clientFull [("status", JValue.str "degraded")] rfl).2
        (by decide)).1,
    ((c8_health_render envFull clientFull [("status", JValue.str "degraded")] rfl).2
        (by decide)).2⟩

end Pond
